import Mathlib

/-!
Shallow embedding of the foreground-window classification and
capture-scheduling core of the autogamejournal program, translated from
src/main.rs. Character strings are modelled as lists of Unicode scalar
values, matching iteration over chars in the source; OS queries that can
fail are modelled as Except values fixed for one poll cycle.
-/

namespace AutoGameJournal

/-- Strings as lists of chars, matching the per-char processing in the source. -/
abbrev Str := List Char

/-- Rectangle in screen coordinates where y grows downward, from RECT. -/
structure Rect where
  left : Int
  top : Int
  right : Int
  bottom : Int
deriving DecidableEq, Repr

/-- One rule of the configuration, from struct RuleEntry in main.rs. -/
structure RuleEntry where
  name : Str
  ignore : Bool
  needs_fullscreen : Bool
  use_window_name : Bool
  override_name : Option Str
deriving DecidableEq, Repr

/-- Default field values, from impl Default for RuleEntry. -/
def RuleEntry.default : RuleEntry :=
  { name := []
  , ignore := false
  , needs_fullscreen := true
  , use_window_name := false
  , override_name := none }

/-- Configuration, from struct Config in main.rs. -/
structure Config where
  target_folder : Str
  screenshot_delay : Nat
  rules : List RuleEntry
deriving Repr

/-- Membership in the character set kept unchanged by normalize_name:
the match arms of the closure inside normalize_name. -/
def allowed_char (c : Char) : Bool :=
  decide (('a' ≤ c ∧ c ≤ 'z') ∨ ('A' ≤ c ∧ c ≤ 'Z') ∨ ('0' ≤ c ∧ c ≤ '9')
    ∨ c = '.' ∨ c = '_' ∨ c = '-' ∨ c = ' ')

/-- Per-character action of normalize_name: keep an allowed character,
replace anything else by an underscore. -/
def norm_char (c : Char) : Char :=
  if allowed_char c then c else '_'

/-- The function normalize_name of main.rs: chars are mapped one by one. -/
def normalize_name (s : Str) : Str :=
  s.map norm_char

/-- Per-character lowering that models String to_lowercase from the source;
the claims depend only on it being applied characterwise to both sides. -/
def to_lowercase (s : Str) : Str :=
  s.map Char.toLower

/-- The predicate of the find call in get_valid_window: the rule name and
the resolved identity compare equal after lowcasing both. -/
def rule_matches (e : RuleEntry) (name : Str) : Bool :=
  to_lowercase e.name == to_lowercase name

/-- The rule lookup in get_valid_window: first match wins, absence of a
match yields the default rule. -/
def lookup_rule (rules : List RuleEntry) (name : Str) : RuleEntry :=
  (rules.find? (fun e => rule_matches e name)).getD RuleEntry.default

/-- Splits a char list at its last dot: the part before and the part after. -/
def rsplit_once_dot : Str → Option (Str × Str)
  | [] => none
  | c :: rest =>
    match rsplit_once_dot rest with
    | some (b, a) => some (c :: b, a)
    | none => if c = '.' then some ([], rest) else none

/-- Models Path file_stem applied to the bare executable file name stored
in a process snapshot entry (no directory separators): none for the empty
name and the special dot names, the whole name when there is no dot or the
only dot leads the name, otherwise the part before the last dot. -/
def file_stem (s : Str) : Option Str :=
  if s = [] ∨ s = ['.'] ∨ s = ['.', '.'] then none
  else
    match rsplit_once_dot s with
    | some (before, _) => if before = [] then some s else some before
    | none => some s

/-- One entry of the process enumeration snapshot, from PROCESSENTRY32;
the bindings in use return the executable file name already decoded to a
string, so decoding cannot fail past this point. -/
structure ProcessEntry where
  th32ProcessID : Nat
  szExeFile : Str
deriving DecidableEq, Repr

/-- The function get_process_name_from_pid of main.rs: scan the snapshot
for the process id, then take the file stem of its executable name. -/
def get_process_name_from_pid (snapshot : List ProcessEntry) (pid : Nat) : Except String Str :=
  match snapshot.find? (fun p => p.th32ProcessID == pid) with
  | none => .error "PID not found"
  | some p =>
    match file_stem p.szExeFile with
    | none => .error "Getting file stem"
    | some stem => .ok stem

/-- OS-reported facts about the current foreground window during one poll
cycle; each fallible query is an Except value, deterministic within the
cycle. -/
structure WindowEnv where
  ptr : Nat
  pid : Nat
  windowText : Except String Str
  rect : Except String Rect
  monitorRect : Except String Rect
  snapshot : Except String (List ProcessEntry)
deriving Repr

/-- The function get_name of main.rs: the normalized window title when the
owning process id is zero, else the executable name found through the
process snapshot. -/
def get_name (w : WindowEnv) : Except String Str :=
  if w.pid = 0 then
    match w.windowText with
    | .error e => .error e
    | .ok t => .ok (normalize_name t)
  else
    match w.snapshot with
    | .error e => .error e
    | .ok ps => get_process_name_from_pid ps w.pid

/-- The four edge comparisons inside get_valid_window: the window rectangle
contains the monitor rectangle on every edge. -/
def is_fullscreen (rect mon : Rect) : Bool :=
  decide (rect.left ≤ mon.left ∧ rect.right ≥ mon.right
    ∧ rect.top ≤ mon.top ∧ rect.bottom ≥ mon.bottom)

/-- The fullscreen block of get_valid_window: when the rule requires
fullscreen, fetch the window and monitor rectangles and fail unless the
containment test passes. -/
def check_fullscreen (window : WindowEnv) (rule : RuleEntry) : Except String Unit :=
  if rule.needs_fullscreen then
    match window.rect with
    | .error e => .error e
    | .ok rect =>
      match window.monitorRect with
      | .error e => .error e
      | .ok mon =>
        if is_fullscreen rect mon then .ok () else .error "Window is not fullscreen"
  else .ok ()

/-- The final name computation of get_valid_window: override_name wins,
then the normalized window title when use_window_name is set, then the
resolved identity. -/
def bucket (window : WindowEnv) (rule : RuleEntry) (name : Str) : Except String (Nat × Str) :=
  match rule.override_name with
  | some n => .ok (window.ptr, n)
  | none =>
    if rule.use_window_name then
      match window.windowText with
      | .error e => .error e
      | .ok t => .ok (window.ptr, normalize_name t)
    else .ok (window.ptr, name)

/-- The function get_valid_window of main.rs, over the facts the OS reports
for the cycle: resolve the identity, look up the rule, apply the ignore and
fullscreen checks, compute the bucket name. -/
def get_valid_window (foreground : Option WindowEnv) (config : Config) : Except String (Nat × Str) :=
  match foreground with
  | none => .error "Failed to get foreground window"
  | some window =>
    match get_name window with
    | .error e => .error e
    | .ok name =>
      let associated_config := lookup_rule config.rules name
      if associated_config.ignore then .error "Executable is ignored"
      else
        match check_fullscreen window associated_config with
        | .error e => .error e
        | .ok _ => bucket window associated_config name

/-- What one loop iteration of screenshot_thread did. -/
inductive CycleOutcome
  | noValidWindow
  | noInputSinceLast
  | saveFailed
  | saved
deriving DecidableEq, Repr

/-- Inputs of one loop iteration of screenshot_thread: the OS facts behind
get_valid_window, the configuration, the result of the last-input query and
the result the capture would give if attempted. -/
structure CycleEnv where
  foreground : Option WindowEnv
  config : Config
  lastInputTime : Except String Nat
  saveResult : Except String Unit

/-- One iteration of the loop body of screenshot_thread: given the stored
last_input value, produce the stored value after the iteration and what the
iteration did. The Ok arm of the query assigns last_input before the save
call, and the Err arm logs and falls through to the save call with
last_input unchanged, exactly as in the source. -/
def screenshot_cycle (env : CycleEnv) (last_input : Nat) : Nat × CycleOutcome :=
  match get_valid_window env.foreground env.config with
  | .error _ => (last_input, .noValidWindow)
  | .ok _ =>
    match env.lastInputTime with
    | .ok time =>
      if time ≤ last_input then (last_input, .noInputSinceLast)
      else
        match env.saveResult with
        | .error _ => (time, .saveFailed)
        | .ok _ => (time, .saved)
    | .error _ =>
      match env.saveResult with
      | .error _ => (last_input, .saveFailed)
      | .ok _ => (last_input, .saved)

/-- Concrete foreground-window facts used by witnesses: a window of a
process with id 7 named game.exe, a readable title, and a window rectangle
equal to the monitor rectangle. -/
def wEnvGame : WindowEnv :=
  { ptr := 1, pid := 7
  , windowText := .ok "Game Window".data
  , rect := .ok ⟨0, 0, 100, 100⟩
  , monitorRect := .ok ⟨0, 0, 100, 100⟩
  , snapshot := .ok [⟨7, "game.exe".data⟩] }

/-- Concrete window facts with owning process id zero. -/
def wEnvShell : WindowEnv :=
  { ptr := 2, pid := 0
  , windowText := .ok "Desktop: Shell".data
  , rect := .ok ⟨0, 0, 100, 100⟩
  , monitorRect := .ok ⟨0, 0, 100, 100⟩
  , snapshot := .ok [⟨7, "game.exe".data⟩] }

/-- Concrete window facts whose process id is absent from the snapshot. -/
def wEnvGone : WindowEnv :=
  { ptr := 3, pid := 9
  , windowText := .ok "Game Window".data
  , rect := .ok ⟨0, 0, 100, 100⟩
  , monitorRect := .ok ⟨0, 0, 100, 100⟩
  , snapshot := .ok [⟨7, "game.exe".data⟩] }

/-- Concrete window facts whose title query fails. -/
def wEnvNoText : WindowEnv :=
  { ptr := 4, pid := 7
  , windowText := .error "GetWindowText failed"
  , rect := .ok ⟨0, 0, 100, 100⟩
  , monitorRect := .ok ⟨0, 0, 100, 100⟩
  , snapshot := .ok [⟨7, "game.exe".data⟩] }

/-- Configuration with no rules. -/
def cfg0 : Config := { target_folder := [], screenshot_delay := 1, rules := [] }

/-- Configuration with a rule naming the bucket from the window title. -/
def cfgUse : Config :=
  { target_folder := [], screenshot_delay := 1
  , rules := [{ name := "game".data, ignore := false, needs_fullscreen := true
              , use_window_name := true, override_name := none }] }

/-- Configuration with a rule that sets both use_window_name and an
override name. -/
def cfgOvr : Config :=
  { target_folder := [], screenshot_delay := 1
  , rules := [{ name := "game".data, ignore := false, needs_fullscreen := true
              , use_window_name := true, override_name := some "Ovr".data }] }

/-- Configuration whose override name holds a path separator. -/
def cfgBad : Config :=
  { target_folder := [], screenshot_delay := 1
  , rules := [{ name := "game".data, ignore := false, needs_fullscreen := true
              , use_window_name := false, override_name := some "bad/name".data }] }

/-! Cycle environments used by the scheduler results. -/

/-- Cycle inputs whose capture fails while the activity query succeeds. -/
def envSaveFails : CycleEnv :=
  { foreground := some wEnvGame, config := cfg0
  , lastInputTime := .ok 5, saveResult := .error "device lost" }

/-- Cycle inputs whose activity query fails while the capture succeeds. -/
def envQueryFails : CycleEnv :=
  { foreground := some wEnvGame, config := cfg0
  , lastInputTime := .error "query failed", saveResult := .ok () }

/-- Cycle inputs with query answer 100 and a succeeding capture. -/
def envInput100 : CycleEnv :=
  { foreground := some wEnvGame, config := cfg0
  , lastInputTime := .ok 100, saveResult := .ok () }

/-- Cycle inputs with query answer 101 and a succeeding capture. -/
def envInput101 : CycleEnv :=
  { foreground := some wEnvGame, config := cfg0
  , lastInputTime := .ok 101, saveResult := .ok () }


/-! Helper lemmas shared by several results. -/

theorem allowed_char_underscore : allowed_char '_' = true := by decide

theorem allowed_char_norm_char (c : Char) : allowed_char (norm_char c) = true := by
  unfold norm_char
  by_cases h : allowed_char c = true
  · simp [h]
  · simp [h, allowed_char_underscore]

theorem norm_char_idem (c : Char) : norm_char (norm_char c) = norm_char c := by
  unfold norm_char
  by_cases h : allowed_char c = true
  · simp [h]
  · simp [h, allowed_char_underscore]

theorem mem_normalize_allowed (s : Str) :
    ∀ c ∈ normalize_name s, allowed_char c = true := by
  intro c hc
  unfold normalize_name at hc
  obtain ⟨a, _, rfl⟩ := List.mem_map.mp hc
  exact allowed_char_norm_char a

theorem normalize_idem (s : Str) :
    normalize_name (normalize_name s) = normalize_name s := by
  induction s with
  | nil => rfl
  | cons c rest ih =>
    simp only [normalize_name, List.map_cons] at ih ⊢
    rw [norm_char_idem]
    exact congrArg _ ih

theorem normalize_all_allowed (s : Str) :
    (normalize_name s).all allowed_char = true := by
  rw [List.all_eq_true]
  exact mem_normalize_allowed s

/-- C7: normalize_name keeps the length, outputs only allowed characters,
and is idempotent. -/
theorem normalize_name_spec (s : Str) :
    (normalize_name s).length = s.length
    ∧ (normalize_name s).all allowed_char = true
    ∧ normalize_name (normalize_name s) = normalize_name s := by
  refine ⟨?_, normalize_all_allowed s, normalize_idem s⟩
  simp [normalize_name]

/-- C7 witness: the spec example input, with the expected concrete output. -/
theorem normalize_name_spec_witness :
    ((normalize_name "Half-Life: Alyx".data).length = ("Half-Life: Alyx".data).length
      ∧ (normalize_name "Half-Life: Alyx".data).all allowed_char = true
      ∧ normalize_name (normalize_name "Half-Life: Alyx".data)
          = normalize_name "Half-Life: Alyx".data)
    ∧ normalize_name "Half-Life: Alyx".data = "Half-Life_ Alyx".data :=
  ⟨normalize_name_spec ("Half-Life: Alyx".data), by decide⟩

/-- C5: the fullscreen test passes exactly when the window rectangle
contains the monitor rectangle on all four edges; an exactly equal
rectangle passes, any positive inset on any single edge fails, and any
rectangle equal or larger on all edges passes. -/
theorem fullscreen_test_spec (w m : Rect) (d : Int) :
    (is_fullscreen w m = true
      ↔ (w.left ≤ m.left ∧ w.right ≥ m.right ∧ w.top ≤ m.top ∧ w.bottom ≥ m.bottom))
    ∧ is_fullscreen m m = true
    ∧ (0 < d →
        is_fullscreen { m with left := m.left + d } m = false
        ∧ is_fullscreen { m with right := m.right - d } m = false
        ∧ is_fullscreen { m with top := m.top + d } m = false
        ∧ is_fullscreen { m with bottom := m.bottom - d } m = false)
    ∧ (∀ dl dr dt db : Int, 0 ≤ dl → 0 ≤ dr → 0 ≤ dt → 0 ≤ db →
        is_fullscreen ⟨m.left - dl, m.top - dt, m.right + dr, m.bottom + db⟩ m = true) := by
  refine ⟨?_, ?_, fun hd => ⟨?_, ?_, ?_, ?_⟩, fun dl dr dt db h1 h2 h3 h4 => ?_⟩
  · simp [is_fullscreen]
  · simp [is_fullscreen]
  all_goals simp only [is_fullscreen, decide_eq_true_eq, decide_eq_false_iff_not]
  all_goals simp only [ge_iff_le]
  all_goals omega

/-- C5 witness: a concrete monitor with the three spec scenarios. -/
theorem fullscreen_test_spec_witness :
    is_fullscreen ⟨0, 0, 1920, 1080⟩ ⟨0, 0, 1920, 1080⟩ = true
    ∧ is_fullscreen ⟨1, 0, 1920, 1080⟩ ⟨0, 0, 1920, 1080⟩ = false
    ∧ is_fullscreen ⟨-5, -5, 1925, 1085⟩ ⟨0, 0, 1920, 1080⟩ = true := by
  refine ⟨(fullscreen_test_spec ⟨0, 0, 1920, 1080⟩ ⟨0, 0, 1920, 1080⟩ 1).2.1, ?_, ?_⟩
  · exact ((fullscreen_test_spec ⟨0, 0, 1920, 1080⟩ ⟨0, 0, 1920, 1080⟩ 1).2.2.1 (by decide)).1
  · exact (fullscreen_test_spec ⟨0, 0, 1920, 1080⟩ ⟨0, 0, 1920, 1080⟩ 1).2.2.2 5 5 5 5
      (by decide) (by decide) (by decide) (by decide)

/-- C4: the rule lookup returns the first rule whose lowered name equals
the lowered identity; without a match it returns the all-defaults rule,
which is not ignored and requires fullscreen. -/
theorem lookup_rule_spec (rules pre post : List RuleEntry) (r : RuleEntry) (name : Str) :
    (rules = pre ++ r :: post →
      (∀ e ∈ pre, rule_matches e name = false) →
      rule_matches r name = true →
      lookup_rule rules name = r)
    ∧ ((∀ e ∈ rules, rule_matches e name = false) →
      lookup_rule rules name = RuleEntry.default
      ∧ (lookup_rule rules name).ignore = false
      ∧ (lookup_rule rules name).needs_fullscreen = true
      ∧ (lookup_rule rules name).use_window_name = false
      ∧ (lookup_rule rules name).override_name = none) := by
  constructor
  · rintro rfl hpre hr
    unfold lookup_rule
    induction pre with
    | nil => simp [List.find?_cons_of_pos, hr]
    | cons e rest ih =>
      have he : rule_matches e name = false := hpre e (List.mem_cons_self e rest)
      have hrest : ∀ x ∈ rest, rule_matches x name = false :=
        fun x hx => hpre x (List.mem_cons_of_mem e hx)
      simpa [List.find?_cons_of_neg, he] using ih hrest
  · intro hall
    have hfind : rules.find? (fun e => rule_matches e name) = none := by
      rw [List.find?_eq_none]
      intro x hx
      simp [hall x hx]
    refine ⟨?_, ?_, ?_, ?_, ?_⟩ <;> simp [lookup_rule, hfind, RuleEntry.default]

/-- C4 witness: a rule named Chrome is found case-insensitively for the
identity CHROME, and an unmatched identity gets the default rule. -/
theorem lookup_rule_spec_witness :
    lookup_rule [{ name := "Chrome".data, ignore := true, needs_fullscreen := false
                 , use_window_name := false, override_name := none }] "CHROME".data
      = { name := "Chrome".data, ignore := true, needs_fullscreen := false
        , use_window_name := false, override_name := none }
    ∧ lookup_rule [{ name := "Chrome".data, ignore := true, needs_fullscreen := false
                   , use_window_name := false, override_name := none }] "firefox".data
      = RuleEntry.default := by
  constructor
  · exact (lookup_rule_spec _ [] []
      { name := "Chrome".data, ignore := true, needs_fullscreen := false
      , use_window_name := false, override_name := none } "CHROME".data).1
      rfl (by intro e he; cases he) (by decide)
  · exact ((lookup_rule_spec
      [{ name := "Chrome".data, ignore := true, needs_fullscreen := false
       , use_window_name := false, override_name := none }] [] [] RuleEntry.default
      "firefox".data).2 (by decide)).1

/-! Decomposition of a successful classification. -/

theorem find_append_first {α : Type} (f : α → Bool) (pre post : List α) (x : α)
    (hpre : ∀ q ∈ pre, f q = false) (hx : f x = true) :
    (pre ++ x :: post).find? f = some x := by
  induction pre with
  | nil => simp [List.find?_cons, hx]
  | cons q rest ih =>
    have hq : f q = false := hpre q (List.mem_cons_self q rest)
    rw [List.cons_append, List.find?_cons, hq]
    exact ih (fun y hy => hpre y (List.mem_cons_of_mem q hy))

theorem get_valid_window_ok (w : WindowEnv) (cfg : Config) (i : Nat) (b name : Str)
    (hn : get_name w = .ok name)
    (h : get_valid_window (some w) cfg = .ok (i, b)) :
    (lookup_rule cfg.rules name).ignore = false
    ∧ check_fullscreen w (lookup_rule cfg.rules name) = .ok ()
    ∧ bucket w (lookup_rule cfg.rules name) name = .ok (i, b) := by
  simp only [get_valid_window, hn] at h
  rcases hig : (lookup_rule cfg.rules name).ignore with _ | _
  · simp only [hig, Bool.false_eq_true, if_false] at h
    rcases hcf : check_fullscreen w (lookup_rule cfg.rules name) with e | u
    · simp [hcf] at h
    · cases u
      simp only [hcf] at h
      exact ⟨rfl, rfl, h⟩
  · simp [hig] at h

/-- C6: on a successful classification, the bucket name follows the
precedence override_name first, then the normalized window title when
use_window_name is set, then the resolved identity. -/
theorem bucket_name_precedence (w : WindowEnv) (cfg : Config) (i : Nat) (b name : Str)
    (hn : get_name w = .ok name)
    (h : get_valid_window (some w) cfg = .ok (i, b)) :
    (∀ n, (lookup_rule cfg.rules name).override_name = some n → b = n)
    ∧ ((lookup_rule cfg.rules name).override_name = none →
        (lookup_rule cfg.rules name).use_window_name = true →
        ∃ t, w.windowText = .ok t ∧ b = normalize_name t)
    ∧ ((lookup_rule cfg.rules name).override_name = none →
        (lookup_rule cfg.rules name).use_window_name = false →
        b = name) := by
  obtain ⟨-, -, hb⟩ := get_valid_window_ok w cfg i b name hn h
  refine ⟨?_, ?_, ?_⟩
  · intro n hov
    simp only [bucket, hov, Except.ok.injEq, Prod.mk.injEq] at hb
    exact hb.2.symm
  · intro hov huse
    simp only [bucket, hov, huse, if_true] at hb
    rcases ht : w.windowText with e | t
    · simp [ht] at hb
    · simp only [ht, Except.ok.injEq, Prod.mk.injEq] at hb
      exact ⟨t, rfl, hb.2.symm⟩
  · intro hov huse
    simp only [bucket, hov, huse, Bool.false_eq_true, if_false, Except.ok.injEq,
      Prod.mk.injEq] at hb
    exact hb.2.symm

/-- C6 witness: with use_window_name set and no override the bucket is the
normalized title, and with both set the override wins. -/
theorem bucket_name_precedence_witness :
    (∃ t, wEnvGame.windowText = .ok t ∧ "Game Window".data = normalize_name t)
    ∧ get_valid_window (some wEnvGame) cfgOvr = .ok (1, "Ovr".data) :=
  ⟨(bucket_name_precedence wEnvGame cfgUse 1 "Game Window".data "game".data rfl rfl).2.1
      rfl rfl,
    rfl⟩

/-- C8: identity resolution yields the normalized title when the process
id is zero, otherwise the file stem of the executable of the first
snapshot entry with that id, and fails when the id is absent from the
snapshot. -/
theorem get_name_spec (w : WindowEnv) (t : Str) (ps : List ProcessEntry)
    (p : ProcessEntry) (pre post : List ProcessEntry) :
    (w.pid = 0 → w.windowText = .ok t → get_name w = .ok (normalize_name t))
    ∧ (w.pid ≠ 0 → w.snapshot = .ok ps → ps = pre ++ p :: post →
        (∀ q ∈ pre, q.th32ProcessID ≠ w.pid) → p.th32ProcessID = w.pid →
        ∀ stem, file_stem p.szExeFile = some stem → get_name w = .ok stem)
    ∧ (w.pid ≠ 0 → w.snapshot = .ok ps → (∀ q ∈ ps, q.th32ProcessID ≠ w.pid) →
        get_name w = .error "PID not found") := by
  refine ⟨?_, ?_, ?_⟩
  · intro hpid htext
    simp [get_name, hpid, htext]
  · intro hpid hsnap hsplit hpre hp stem hstem
    subst hsplit
    have hfind : (pre ++ p :: post).find? (fun q => q.th32ProcessID == w.pid) = some p :=
      find_append_first _ pre post p
        (fun q hq => by simpa using hpre q hq) (by simpa using hp)
    simp [get_name, hpid, hsnap, get_process_name_from_pid, hfind, hstem]
  · intro hpid hsnap hnone
    have hfind : ps.find? (fun q => q.th32ProcessID == w.pid) = none := by
      rw [List.find?_eq_none]
      intro x hx
      simpa using hnone x hx
    simp [get_name, hpid, hsnap, get_process_name_from_pid, hfind]

/-- C8 witness: the three branches at concrete window facts. -/
theorem get_name_spec_witness :
    get_name wEnvShell = .ok (normalize_name "Desktop: Shell".data)
    ∧ get_name wEnvGame = .ok "game".data
    ∧ get_name wEnvGone = .error "PID not found" :=
  ⟨(get_name_spec wEnvShell "Desktop: Shell".data [] ⟨0, []⟩ [] []).1 rfl rfl,
    (get_name_spec wEnvGame [] [⟨7, "game.exe".data⟩] ⟨7, "game.exe".data⟩ [] []).2.1
      (by decide) rfl rfl (by intro q hq; cases hq) rfl "game".data (by decide),
    (get_name_spec wEnvGone [] [⟨7, "game.exe".data⟩] ⟨0, []⟩ [] []).2.2
      (by decide) rfl (by decide)⟩

/-- C9 counterexample: a successful classification can output a bucket
name holding a path separator, through an override name taken verbatim
from the configuration. -/
theorem bucket_unsafe_counterexample :
    get_valid_window (some wEnvGame) cfgBad = .ok (1, "bad/name".data)
    ∧ ("bad/name".data).all allowed_char = false :=
  ⟨rfl, by decide⟩

/-- C9 amended: bucket names that come from the normalized window title,
through use_window_name or through the zero-process-id identity, contain
only allowed characters; override names and executable file stems are used
verbatim and carry no such guarantee. -/
theorem normalized_bucket_safe (w : WindowEnv) (cfg : Config) (i : Nat) (b name : Str)
    (hn : get_name w = .ok name)
    (hov : (lookup_rule cfg.rules name).override_name = none)
    (hcase : (lookup_rule cfg.rules name).use_window_name = true ∨
      ((lookup_rule cfg.rules name).use_window_name = false ∧ w.pid = 0))
    (h : get_valid_window (some w) cfg = .ok (i, b)) :
    b.all allowed_char = true := by
  obtain ⟨-, -, hb⟩ := get_valid_window_ok w cfg i b name hn h
  rcases hcase with huse | ⟨huse, hpid⟩
  · simp only [bucket, hov, huse, if_true] at hb
    rcases ht : w.windowText with e | s
    · simp [ht] at hb
    · simp only [ht, Except.ok.injEq, Prod.mk.injEq] at hb
      rw [← hb.2]
      exact normalize_all_allowed s
  · simp only [bucket, hov, huse, Bool.false_eq_true, if_false, Except.ok.injEq,
      Prod.mk.injEq] at hb
    rw [← hb.2]
    rcases ht : w.windowText with e | s
    · simp [get_name, hpid, ht] at hn
    · simp only [get_name, hpid, if_true, ht, Except.ok.injEq] at hn
      rw [← hn]
      exact normalize_all_allowed s

/-- C9 amended witness: the use_window_name path at concrete facts. -/
theorem normalized_bucket_safe_witness :
    ("Game Window".data).all allowed_char = true :=
  normalized_bucket_safe wEnvGame cfgUse 1 "Game Window".data "game".data rfl rfl
    (Or.inl rfl) rfl

/-- C10: when the matched rule has use_window_name and no override and the
ignore and fullscreen checks pass, a failing window-title query at the
bucket-name step fails the whole classification with that error. -/
theorem window_text_failure_fails (w : WindowEnv) (cfg : Config) (name : Str) (e : String)
    (hn : get_name w = .ok name)
    (hig : (lookup_rule cfg.rules name).ignore = false)
    (hov : (lookup_rule cfg.rules name).override_name = none)
    (huse : (lookup_rule cfg.rules name).use_window_name = true)
    (hfs : (lookup_rule cfg.rules name).needs_fullscreen = false ∨
      (∃ r m, w.rect = .ok r ∧ w.monitorRect = .ok m ∧ is_fullscreen r m = true))
    (htext : w.windowText = .error e) :
    get_valid_window (some w) cfg = .error e := by
  have hcf : check_fullscreen w (lookup_rule cfg.rules name) = .ok () := by
    rcases hfs with hno | ⟨r, m, hr, hm, hpass⟩
    · simp [check_fullscreen, hno]
    · rcases hneed : (lookup_rule cfg.rules name).needs_fullscreen with _ | _
      · simp [check_fullscreen, hneed]
      · simp [check_fullscreen, hneed, hr, hm, hpass]
  simp [get_valid_window, hn, hig, hcf, bucket, hov, huse, htext]

/-- C10 witness: at concrete facts whose title query fails, with a matched
rule passing the ignore and fullscreen checks, classification fails. -/
theorem window_text_failure_fails_witness :
    get_valid_window (some wEnvNoText) cfgUse = .error "GetWindowText failed" :=
  window_text_failure_fails wEnvNoText cfgUse "game".data "GetWindowText failed"
    rfl rfl rfl rfl
    (Or.inr ⟨⟨0, 0, 100, 100⟩, ⟨0, 0, 100, 100⟩, rfl, rfl, rfl⟩) rfl

/-- C1 counterexample: a cycle whose capture fails still changes the
stored last-input value, because the loop assigns it before the save call:
with stored value 0 and a query answering 5, the failed cycle ends with
stored value 5, not the pre-cycle value 0. -/
theorem commit_before_save_counterexample :
    (screenshot_cycle envSaveFails 0).2 = CycleOutcome.saveFailed
    ∧ (screenshot_cycle envSaveFails 0).1 = 5
    ∧ (5 : Nat) ≠ 0 :=
  ⟨rfl, rfl, by decide⟩

/-- C1 amended: the stored last-input value is committed when the activity
query succeeds and accepts, before the capture attempt; after a failed
capture the stored value equals the queried time, and it equals the
pre-cycle value only when the query itself failed. -/
theorem failed_save_state (env : CycleEnv) (last time : Nat)
    (hw : ∃ o, get_valid_window env.foreground env.config = .ok o)
    (hsave : ∃ e, env.saveResult = .error e) :
    (env.lastInputTime = .ok time → last < time →
      screenshot_cycle env last = (time, CycleOutcome.saveFailed))
    ∧ ((∃ e2, env.lastInputTime = .error e2) →
      screenshot_cycle env last = (last, CycleOutcome.saveFailed)) := by
  obtain ⟨o, ho⟩ := hw
  obtain ⟨e, he⟩ := hsave
  constructor
  · intro hq hlt
    have hnle : ¬ time ≤ last := Nat.not_le.mpr hlt
    simp [screenshot_cycle, ho, hq, he, hnle]
  · rintro ⟨e2, hq⟩
    simp [screenshot_cycle, ho, hq, he]

/-- C1 amended witness: the concrete failing-capture cycle. -/
theorem failed_save_state_witness :
    screenshot_cycle envSaveFails 0 = (5, CycleOutcome.saveFailed) :=
  (failed_save_state envSaveFails 0 5 ⟨(1, "game".data), rfl⟩ ⟨"device lost", rfl⟩).1
    rfl (by decide)

/-- C2: with a classified window and a successfully queried current
last-input time, the cycle is rejected exactly when current is at most the
stored value; otherwise the stored value becomes current and the cycle
proceeds to the capture attempt. -/
theorem activity_gate_spec (env : CycleEnv) (last time : Nat)
    (hw : ∃ o, get_valid_window env.foreground env.config = .ok o)
    (hq : env.lastInputTime = .ok time) :
    ((screenshot_cycle env last).2 = CycleOutcome.noInputSinceLast ↔ time ≤ last)
    ∧ (time ≤ last → screenshot_cycle env last = (last, CycleOutcome.noInputSinceLast))
    ∧ (last < time →
        (screenshot_cycle env last).1 = time
        ∧ ((screenshot_cycle env last).2 = CycleOutcome.saveFailed
          ∨ (screenshot_cycle env last).2 = CycleOutcome.saved)) := by
  obtain ⟨o, ho⟩ := hw
  refine ⟨?_, ?_, ?_⟩
  · by_cases hle : time ≤ last
    · simp [screenshot_cycle, ho, hq, hle]
    · rcases hs : env.saveResult with e | u <;>
        simp [screenshot_cycle, ho, hq, hle, hs]
  · intro hle
    simp [screenshot_cycle, ho, hq, hle]
  · intro hlt
    have hnle : ¬ time ≤ last := Nat.not_le.mpr hlt
    rcases hs : env.saveResult with e | u <;>
      simp [screenshot_cycle, ho, hq, hnle, hs]

/-- C2 witness: stored value 100 with query 100 rejects; query 101 accepts
and commits 101; stored value 101 with query 101 rejects again. -/
theorem activity_gate_spec_witness :
    screenshot_cycle envInput100 100 = (100, CycleOutcome.noInputSinceLast)
    ∧ (screenshot_cycle envInput101 100).1 = 101
    ∧ screenshot_cycle envInput101 101 = (101, CycleOutcome.noInputSinceLast) :=
  ⟨(activity_gate_spec envInput100 100 100 ⟨(1, "game".data), rfl⟩ rfl).2.1 (by decide),
    ((activity_gate_spec envInput101 100 101 ⟨(1, "game".data), rfl⟩ rfl).2.2
      (by decide)).1,
    (activity_gate_spec envInput101 101 101 ⟨(1, "game".data), rfl⟩ rfl).2.1 (by decide)⟩

/-- C3 counterexample: a cycle whose last-input query fails is not
rejected: the loop falls through to the capture call, which here runs and
succeeds, so a capture is attempted in a cycle the claim says is skipped. -/
theorem query_failure_counterexample :
    screenshot_cycle envQueryFails 0 = (0, CycleOutcome.saved) := rfl

/-- C3 amended: when the last-input query fails, the failure is logged and
the stored value is left unchanged, but the cycle is not rejected: the
loop falls through and attempts the capture. -/
theorem query_failure_proceeds (env : CycleEnv) (last : Nat)
    (hw : ∃ o, get_valid_window env.foreground env.config = .ok o)
    (hq : ∃ e, env.lastInputTime = .error e) :
    (screenshot_cycle env last).1 = last
    ∧ ((∃ u, env.saveResult = .ok u) →
        (screenshot_cycle env last).2 = CycleOutcome.saved)
    ∧ ((∃ e2, env.saveResult = .error e2) →
        (screenshot_cycle env last).2 = CycleOutcome.saveFailed) := by
  obtain ⟨o, ho⟩ := hw
  obtain ⟨e, hqe⟩ := hq
  refine ⟨?_, ?_, ?_⟩
  · rcases hs : env.saveResult with e2 | u <;> simp [screenshot_cycle, ho, hqe, hs]
  · rintro ⟨u, hs⟩
    simp [screenshot_cycle, ho, hqe, hs]
  · rintro ⟨e2, hs⟩
    simp [screenshot_cycle, ho, hqe, hs]

/-- C3 amended witness: the concrete failing-query cycle. -/
theorem query_failure_proceeds_witness :
    (screenshot_cycle envQueryFails 0).1 = 0
    ∧ (screenshot_cycle envQueryFails 0).2 = CycleOutcome.saved :=
  ⟨(query_failure_proceeds envQueryFails 0 ⟨(1, "game".data), rfl⟩
      ⟨"query failed", rfl⟩).1,
    (query_failure_proceeds envQueryFails 0 ⟨(1, "game".data), rfl⟩
      ⟨"query failed", rfl⟩).2.1 ⟨(), rfl⟩⟩

end AutoGameJournal
